import Mathlib

/-!
Shallow embedding of the rox-icu CAN protocol codec (`src/rox_icu/can_protocol.py`,
protocol VERSION 12) and of the host-side device driver (`src/rox_icu/core.py`).

Python integers are modelled as `Nat` (all protocol fields are unsigned: the
registered parameter widths are UINT8 and UINT32); `struct.pack`/`struct.unpack`
range and length failures, `KeyError`, `IndexError`, `AttributeError`,
`ValueError`, `RuntimeError` and the driver's `HeartbeatError` are modelled as
values of `PyExc` carried in `Except`.  Wall-clock instants (`time.time()`) are
modelled as rationals passed in explicitly.
-/

/-- Python exceptions raised by the codec and the driver. -/
inductive PyExc
  /-- `KeyError`: a dict lookup failed (`_OPCODE2MSG[opcode]`, `params_byte_defs[param_id]`). -/
  | keyError
  /-- `struct.error`: pack argument out of range, or unpack length mismatch. -/
  | structError
  /-- `IndexError`: `data[0]` on empty data. -/
  | indexError
  /-- `AttributeError` with the missing attribute's name. -/
  | attributeError (name : String)
  /-- `ValueError` with its message. -/
  | valueError (msg : String)
  /-- `RuntimeError` with its message. -/
  | runtimeError (msg : String)
  /-- `rox_icu.core.HeartbeatError` with its message. -/
  | heartbeatError (msg : String)
deriving DecidableEq

deriving instance DecidableEq for Except

/-- The struct format characters used by `device_parameters`: UINT8 = "B", UINT32 = "I". -/
inductive ByteDef
  | uint8
  | uint32
deriving DecidableEq

/-- `params_byte_defs`: reverse lookup {param_id: byte_def} built from `device_parameters`
(io_state 0:B, device_state 1:B, error_max1 2:B, error_max2 3:B, test_param 255:I). -/
def params_byte_defs (param_id : Nat) : Option ByteDef :=
  if param_id = 0 then some .uint8
  else if param_id = 1 then some .uint8
  else if param_id = 2 then some .uint8
  else if param_id = 3 then some .uint8
  else if param_id = 255 then some .uint32
  else none

/-- The message namedtuples of `can_protocol.py` (VERSION 12), one constructor per class. -/
inductive Msg
  /-- `HaltMessage(io_state)` -/
  | HaltMessage (io_state : Nat)
  /-- `HeartbeatMessage(device_type, io_dir, io_state, errors, counter)` -/
  | HeartbeatMessage (device_type io_dir io_state errors counter : Nat)
  /-- `IoStateMessage(io_state)` -/
  | IoStateMessage (io_state : Nat)
  /-- `SetIoMessage(io_state)` -/
  | SetIoMessage (io_state : Nat)
  /-- `ParameterMessage(param_id, value)` -/
  | ParameterMessage (param_id value : Nat)
  /-- `GetParameterMessage(param_id)` -/
  | GetParameterMessage (param_id : Nat)
  /-- `SetParameterMessage(param_id, value)` -/
  | SetParameterMessage (param_id value : Nat)
deriving DecidableEq

/-- The message classes (the `type(message)` of a `Msg`), i.e. the keys of `_MSG_DEFS`. -/
inductive MsgCls
  | HaltC
  | HeartbeatC
  | IoStateC
  | SetIoC
  | ParameterC
  | GetParameterC
  | SetParameterC
deriving DecidableEq

/-- `type(message)`: the class of a message value. -/
def Msg.cls : Msg → MsgCls
  | .HaltMessage _ => .HaltC
  | .HeartbeatMessage _ _ _ _ _ => .HeartbeatC
  | .IoStateMessage _ => .IoStateC
  | .SetIoMessage _ => .SetIoC
  | .ParameterMessage _ _ => .ParameterC
  | .GetParameterMessage _ => .GetParameterC
  | .SetParameterMessage _ _ => .SetParameterC

/-- The opcode column of `_MSG_DEFS` (enumeration order of the table). -/
def msg_opcode (c : MsgCls) : Nat :=
  match c with
  | .HaltC => 0
  | .HeartbeatC => 1
  | .IoStateC => 2
  | .SetIoC => 3
  | .ParameterC => 4
  | .GetParameterC => 5
  | .SetParameterC => 6

/-- `_OPCODE2MSG`: reverse lookup from opcode to message class. -/
def opcode2msg (opcode : Nat) : Option MsgCls :=
  if opcode = 0 then some .HaltC
  else if opcode = 1 then some .HeartbeatC
  else if opcode = 2 then some .IoStateC
  else if opcode = 3 then some .SetIoC
  else if opcode = 4 then some .ParameterC
  else if opcode = 5 then some .GetParameterC
  else if opcode = 6 then some .SetParameterC
  else none

/-- `generate_message_id(node_id, opcode) = (node_id << 5) | opcode`. -/
def generate_message_id (node_id opcode : Nat) : Nat :=
  (node_id <<< 5) ||| opcode

/-- `split_message_id`: opcode is the lower 5 bits, node_id the upper bits;
returns `(node_id, opcode)`. -/
def split_message_id (message_id : Nat) : Nat × Nat :=
  (message_id >>> 5, message_id &&& 0x1F)

/-- `get_node_id(message_id) = message_id >> 5`. -/
def get_node_id (message_id : Nat) : Nat :=
  message_id >>> 5

/-- `struct.pack("<B", a)`: one unsigned byte; `struct.error` when out of range. -/
def packB (a : Nat) : Except PyExc (List Nat) :=
  if a < 256 then .ok [a] else .error .structError

/-- `struct.pack("<BBBBB", a, b, c, d, e)`: five unsigned bytes. -/
def packBBBBB (a b c d e : Nat) : Except PyExc (List Nat) :=
  if a < 256 ∧ b < 256 ∧ c < 256 ∧ d < 256 ∧ e < 256 then .ok [a, b, c, d, e]
  else .error .structError

/-- `struct.pack("<BB", a, v)`: a byte followed by a UINT8 value. -/
def packBB (a v : Nat) : Except PyExc (List Nat) :=
  if a < 256 ∧ v < 256 then .ok [a, v] else .error .structError

/-- `struct.pack("<BI", a, v)`: a byte followed by a UINT32 value, little-endian. -/
def packBI (a v : Nat) : Except PyExc (List Nat) :=
  if a < 256 ∧ v < 4294967296 then
    .ok [a, v % 256, v / 256 % 256, v / 65536 % 256, v / 16777216 % 256]
  else .error .structError

/-- `encode_message(message, node_id)`: look up the opcode and byte layout in
`_MSG_DEFS`, build the arbitration id, and pack the fields; `ParameterMessage`
and `SetParameterMessage` use the variable layout `"<B" + params_byte_defs[param_id]`
(`KeyError` when the param_id is not registered). -/
def encode_message (m : Msg) (node_id : Nat) : Except PyExc (Nat × List Nat) :=
  let arbitration_id := generate_message_id node_id (msg_opcode m.cls)
  match m with
  | .HaltMessage io => (packB io).map (fun d => (arbitration_id, d))
  | .HeartbeatMessage a b c d e => (packBBBBB a b c d e).map (fun x => (arbitration_id, x))
  | .IoStateMessage io => (packB io).map (fun d => (arbitration_id, d))
  | .SetIoMessage io => (packB io).map (fun d => (arbitration_id, d))
  | .GetParameterMessage p => (packB p).map (fun d => (arbitration_id, d))
  | .ParameterMessage p v | .SetParameterMessage p v =>
    match params_byte_defs p with
    | none => .error .keyError
    | some .uint8 => (packBB p v).map (fun d => (arbitration_id, d))
    | some .uint32 => (packBI p v).map (fun d => (arbitration_id, d))

/-- `message_class(*struct.unpack(byte_def, data))` for the fixed-length classes:
unpack fails with `struct.error` unless the data has exactly the declared length. -/
def unpackFixed (c : MsgCls) (data : List Nat) : Except PyExc Msg :=
  match c, data with
  | .HaltC, [b] => .ok (.HaltMessage b)
  | .HeartbeatC, [a, b, c', d, e] => .ok (.HeartbeatMessage a b c' d e)
  | .IoStateC, [b] => .ok (.IoStateMessage b)
  | .SetIoC, [b] => .ok (.SetIoMessage b)
  | .GetParameterC, [b] => .ok (.GetParameterMessage b)
  | _, _ => .error .structError

/-- The body of `decode_message` after the opcode has been extracted:
`_OPCODE2MSG[opcode]` (KeyError when absent); for `ParameterMessage` and
`SetParameterMessage` the first byte is the param_id (`IndexError` on empty
data, `KeyError` on an unregistered id) and the rest is the value, decoded
little-endian per the registered width, yielding a `ParameterMessage`;
otherwise a fixed-length unpack. -/
def decodeOp (opcode : Nat) (data : List Nat) : Except PyExc Msg :=
  match opcode2msg opcode with
  | none => .error .keyError
  | some c =>
    if c = .ParameterC ∨ c = .SetParameterC then
      match data with
      | [] => .error .indexError
      | param_id :: rest =>
        match params_byte_defs param_id with
        | none => .error .keyError
        | some .uint8 =>
          match rest with
          | [v] => .ok (.ParameterMessage param_id v)
          | _ => .error .structError
        | some .uint32 =>
          match rest with
          | [b0, b1, b2, b3] =>
            .ok (.ParameterMessage param_id (b0 + 256 * b1 + 65536 * b2 + 16777216 * b3))
          | _ => .error .structError
    else unpackFixed c data

/-- `decode_message(arb_id, data)`: extract `opcode = arb_id & 0x1F` and parse. -/
def decode_message (arb_id : Nat) (data : List Nat) : Except PyExc Msg :=
  decodeOp (arb_id &&& 0x1F) data

/-- The field tuple of a message.  Python namedtuples compare by tuple value,
so two messages of different classes with equal field tuples are `==` in Python. -/
def Msg.fields : Msg → List Nat
  | .HaltMessage a => [a]
  | .HeartbeatMessage a b c d e => [a, b, c, d, e]
  | .IoStateMessage a => [a]
  | .SetIoMessage a => [a]
  | .ParameterMessage p v => [p, v]
  | .GetParameterMessage p => [p]
  | .SetParameterMessage p v => [p, v]

/-- Python `==` on namedtuples: tuple equality of the fields. -/
def pyEq (m1 m2 : Msg) : Bool :=
  m1.fields = m2.fields

/-- Encode then decode: the round trip the spec's testable property speaks about. -/
def roundtrip (m : Msg) (node_id : Nat) : Except PyExc Msg :=
  (encode_message m node_id).bind (fun p => decode_message p.1 p.2)

/-- Modelled from the spec's byte-count table as amended to the code's `_MSG_DEFS`:
the number of data bytes each variant encodes to (none when encoding fails for
every value, i.e. an unregistered param_id). -/
def declared_length (m : Msg) : Option Nat :=
  match m with
  | .HaltMessage _ => some 1
  | .HeartbeatMessage _ _ _ _ _ => some 5
  | .IoStateMessage _ => some 1
  | .SetIoMessage _ => some 1
  | .GetParameterMessage _ => some 1
  | .ParameterMessage p _ | .SetParameterMessage p _ =>
    match params_byte_defs p with
    | some .uint8 => some 2
    | some .uint32 => some 5
    | none => none

/-- The fixed payload size of the fixed-length opcodes of `_MSG_DEFS`
(none for the variable-length opcodes 4 and 6 and for unknown opcodes). -/
def fixed_size (opcode : Nat) : Option Nat :=
  if opcode = 0 then some 1
  else if opcode = 1 then some 5
  else if opcode = 2 then some 1
  else if opcode = 3 then some 1
  else if opcode = 5 then some 1
  else none

/-- One I/O pin of the driver (`core.Pin`): bit index, input flag, current and
previous level, and the `is_set` flags of its three `AutoClearEvent`s
(`high_event`, `low_event`, `change_event`). -/
structure PinState where
  number : Nat
  is_input : Bool
  state : Bool
  previous_state : Bool
  high_event : Bool
  low_event : Bool
  change_event : Bool
deriving DecidableEq

/-- `Pin.__init__(number)`: level and previous level false, all events cleared,
`is_input=False` (the driver builds its pins with the default). -/
def initPin (number : Nat) : PinState :=
  { number := number, is_input := false, state := false, previous_state := false
    high_event := false, low_event := false, change_event := false }

/-- `Pin._update(new_state)`: return unchanged when the level is unchanged;
otherwise store the new level, raise the change event, then the high event on
a rising edge or the low event on a falling edge. -/
def pin_update (p : PinState) (new_state : Bool) : PinState :=
  if new_state = p.state then p
  else
    { p with
      previous_state := p.state
      state := new_state
      change_event := true
      high_event := if new_state then true else p.high_event
      low_event := if new_state then p.low_event else true }

/-- The driver session state of one `core.ICU` instance: the fields mutated by
the dispatch path, with `time.time()` instants as rationals. -/
structure IcuState where
  node_id : Nat
  last_heartbeat : Option Msg
  last_heartbeat_time : ℚ
  heartbeat_event : Bool
  io_state : Nat
  pins : Fin 8 → PinState

/-- `ICU.__init__(node_id)`: no heartbeat yet, time 0, event clear, io_state 0,
pins 0..7 freshly constructed. -/
def initIcu (node_id : Nat) : IcuState :=
  { node_id := node_id, last_heartbeat := none, last_heartbeat_time := 0
    heartbeat_event := false, io_state := 0, pins := fun i => initPin i.val }

/-- `HEARTBEAT_TIMEOUT = 0.5` seconds. -/
def HEARTBEAT_TIMEOUT : ℚ := 1 / 2

/-- `ICU.check_alive()` at wall-clock instant `now`: `HeartbeatError` when no
heartbeat was ever received, `HeartbeatError` (timeout message) when the last
one is older than `HEARTBEAT_TIMEOUT`. -/
def check_alive (icu : IcuState) (now : ℚ) : Except PyExc Unit :=
  match icu.last_heartbeat with
  | none => .error (.heartbeatError "Error: No heartbeat message received.")
  | some _ =>
    if now - icu.last_heartbeat_time > HEARTBEAT_TIMEOUT then
      .error (.heartbeatError "Error: Heartbeat message timeout.")
    else .ok ()

/-- Module attribute lookup on `rox_icu.can_protocol` for the message-class
names (protocol VERSION 12 defines `IoStateMessage` and `SetIoMessage`; the
names `IOStateMessage` and `IOSetMessage` that `core.py` and `mock.py` access
are not among the module's definitions, so looking them up raises
`AttributeError`). -/
def can_protocol_attr (name : String) : Option MsgCls :=
  if name = "HaltMessage" then some .HaltC
  else if name = "HeartbeatMessage" then some .HeartbeatC
  else if name = "IoStateMessage" then some .IoStateC
  else if name = "SetIoMessage" then some .SetIoC
  else if name = "ParameterMessage" then some .ParameterC
  else if name = "GetParameterMessage" then some .GetParameterC
  else if name = "SetParameterMessage" then some .SetParameterC
  else none

/-- Calling a message class with one positional argument (`cls(state)`);
`TypeError`-like failures cannot occur at the modelled call sites because the
looked-up names would only ever be one-field classes. -/
def callCls1 (c : MsgCls) (x : Nat) : Msg :=
  match c with
  | .HaltC => .HaltMessage x
  | .HeartbeatC => .HeartbeatMessage x 0 0 0 0
  | .IoStateC => .IoStateMessage x
  | .SetIoC => .SetIoMessage x
  | .ParameterC => .ParameterMessage x 0
  | .GetParameterC => .GetParameterMessage x
  | .SetParameterC => .SetParameterMessage x 0

/-- The `ICU.io_state` setter: `check_alive()` first (its failure propagates and
nothing is sent); then `canp.IOSetMessage(state)` is evaluated — the attribute
lookup — and on success the encoded frame is handed to `bus.send`.  The result
is the `(arbitration_id, data)` frame given to the transport. -/
def io_state_setter (icu : IcuState) (now : ℚ) (state : Nat) : Except PyExc (Nat × List Nat) :=
  match check_alive icu now with
  | .error e => .error e
  | .ok _ =>
    match can_protocol_attr "IOSetMessage" with
    | none => .error (.attributeError "IOSetMessage")
    | some c => encode_message (callCls1 c state) icu.node_id

/-- `ICU._uptate_io_state(io_state)` (source spelling): store the new io_state
and update each of the 8 pins from its bit, `bool(io_state & (1 << i))`. -/
def uptate_io_state (icu : IcuState) (io_state : Nat) : IcuState :=
  { icu with
    io_state := io_state
    pins := fun i => pin_update (icu.pins i) (decide (io_state &&& (1 <<< i.val) ≠ 0)) }

/-- One iteration of `ICU._message_handler` on a dequeued `(arb_id, data)` frame
at instant `now`.  A decode failure is logged and the state unchanged.  A
`HeartbeatMessage` is recorded, the timestamp updated, the io_state (and pins)
updated from its `io_state` field, and the heartbeat event set.  Any other
message reaches `isinstance(msg, canp.IOStateMessage)`, whose attribute lookup
raises `AttributeError`; the handler's exception guard logs it and the state
stays unchanged. -/
def handle_frame (icu : IcuState) (now : ℚ) (arb_id : Nat) (data : List Nat) : IcuState :=
  match decode_message arb_id data with
  | .error _ => icu
  | .ok msg =>
    match msg with
    | .HeartbeatMessage a b c d e =>
      let icu := { icu with
        last_heartbeat := some (.HeartbeatMessage a b c d e)
        last_heartbeat_time := now }
      let icu := uptate_io_state icu c
      { icu with heartbeat_event := true }
    | other =>
      match can_protocol_attr "IOStateMessage" with
      | none => icu
      | some c => if other.cls = c then uptate_io_state icu (other.fields.headI) else icu

/-- The `Pin.state` setter: `ValueError` for an input pin, `RuntimeError` when
no parent is set, otherwise the value assigned to the parent's `io_state` —
`parent.io_state & ~(1 << number) | (new_state << number)` computed in Python
integer arithmetic (modelled on `ℤ` with Mathlib's integer bitwise operations;
`parent_io` is the parent's current `io_state`). -/
def pin_state_setter (p : PinState) (parent_io : Option Nat) (new_state : Bool) :
    Except PyExc Int :=
  if p.is_input then .error (.valueError "pin is read-only")
  else
    match parent_io with
    | none => .error (.runtimeError "parent is not set")
    | some io =>
      .ok (Int.lor (Int.land (io : Int) (Int.lnot ((1 : Int) <<< (p.number : Int))))
        ((if new_state then (1 : Int) else 0) <<< (p.number : Int)))

/-- For node ids and opcodes in the protocol's declared ranges, the arbitration
id keeps the opcode in its low 5 bits and the node id above them. -/
theorem gen_arith : ∀ node_id < 64, ∀ opcode < 32,
    generate_message_id node_id opcode &&& 0x1F = opcode ∧
    generate_message_id node_id opcode >>> 5 = node_id := by decide

/-- Claim C2: for every node_id in [0,63] and opcode in [0,31], splitting the
generated identifier returns exactly (node_id, opcode) under the
`(node << 5) | opcode` layout, and identifier 0x02C splits to node_id=1,
opcode=12. -/
theorem C2_split_generate :
    (∀ node_id < 64, ∀ opcode < 32,
      split_message_id (generate_message_id node_id opcode) = (node_id, opcode)) ∧
    split_message_id 0x2C = (1, 12) := by decide

/-- Witness for C2 at node_id=1, opcode=12. -/
theorem C2_split_generate_witness :
    split_message_id (generate_message_id 1 12) = (1, 12) :=
  C2_split_generate.1 1 (by norm_num) 12 (by norm_num)

/-- Counterexample to claim C1 as stated: `SetParameterMessage(param_id=4, value=0)`
has in-range fields for the claimed `param_id:u8, value:i32` layout, but encoding
raises `KeyError` (param_id 4 is not in `params_byte_defs`), so the decode of the
encoded pair cannot return the message. -/
theorem C1_roundtrip_counterexample :
    roundtrip (Msg.SetParameterMessage 4 0) 1 ≠ .ok (Msg.SetParameterMessage 4 0) ∧
    encode_message (Msg.SetParameterMessage 4 0) 1 = .error .keyError := by decide

/-- Claim C1 as amended: for every node_id in [0,63], decode ∘ encode is the
identity on `Halt`, `Heartbeat`, `IoState`, `SetIo` and `GetParameter` messages
whose byte fields are in [0,255]; for `SetParameterMessage` (and
`ParameterMessage`) the round trip requires a registered param_id and a value
within the registered width (u8 for ids 0–3, u32 for id 255) and returns a
`ParameterMessage` with the same field tuple, which Python's namedtuple
equality deems equal to the encoded message. -/
theorem C1_roundtrip_amended (node_id : Nat) (hn : node_id < 64) :
    (∀ io < 256, roundtrip (.HaltMessage io) node_id = .ok (.HaltMessage io)) ∧
    (∀ a < 256, ∀ b < 256, ∀ c < 256, ∀ d < 256, ∀ e < 256,
      roundtrip (.HeartbeatMessage a b c d e) node_id = .ok (.HeartbeatMessage a b c d e)) ∧
    (∀ io < 256, roundtrip (.IoStateMessage io) node_id = .ok (.IoStateMessage io)) ∧
    (∀ io < 256, roundtrip (.SetIoMessage io) node_id = .ok (.SetIoMessage io)) ∧
    (∀ p < 256, roundtrip (.GetParameterMessage p) node_id = .ok (.GetParameterMessage p)) ∧
    (∀ p v, params_byte_defs p = some .uint8 → v < 256 →
      roundtrip (.SetParameterMessage p v) node_id = .ok (.ParameterMessage p v) ∧
      roundtrip (.ParameterMessage p v) node_id = .ok (.ParameterMessage p v) ∧
      pyEq (.ParameterMessage p v) (.SetParameterMessage p v) = true) ∧
    (∀ p v, params_byte_defs p = some .uint32 → v < 4294967296 →
      roundtrip (.SetParameterMessage p v) node_id = .ok (.ParameterMessage p v) ∧
      roundtrip (.ParameterMessage p v) node_id = .ok (.ParameterMessage p v) ∧
      pyEq (.ParameterMessage p v) (.SetParameterMessage p v) = true) := by
  refine ⟨?_, ?_, ?_, ?_, ?_, ?_, ?_⟩
  · intro io hio
    simp only [roundtrip, encode_message, Msg.cls, msg_opcode, packB, if_pos hio, Except.map,
      Except.bind, decode_message]
    rw [(gen_arith node_id hn 0 (by norm_num)).1]
    rfl
  · intro a ha b hb c hc d hd e he
    simp only [roundtrip, encode_message, Msg.cls, msg_opcode, packBBBBB,
      if_pos (⟨ha, hb, hc, hd, he⟩ : a < 256 ∧ b < 256 ∧ c < 256 ∧ d < 256 ∧ e < 256),
      Except.map, Except.bind, decode_message]
    rw [(gen_arith node_id hn 1 (by norm_num)).1]
    rfl
  · intro io hio
    simp only [roundtrip, encode_message, Msg.cls, msg_opcode, packB, if_pos hio, Except.map,
      Except.bind, decode_message]
    rw [(gen_arith node_id hn 2 (by norm_num)).1]
    rfl
  · intro io hio
    simp only [roundtrip, encode_message, Msg.cls, msg_opcode, packB, if_pos hio, Except.map,
      Except.bind, decode_message]
    rw [(gen_arith node_id hn 3 (by norm_num)).1]
    rfl
  · intro p hp
    simp only [roundtrip, encode_message, Msg.cls, msg_opcode, packB, if_pos hp, Except.map,
      Except.bind, decode_message]
    rw [(gen_arith node_id hn 5 (by norm_num)).1]
    rfl
  · intro p v hp hv
    refine ⟨?_, ?_, by simp [pyEq, Msg.fields]⟩
    · have hp256 : p < 256 := by
        by_contra h
        simp [params_byte_defs] at hp
        omega
      simp only [roundtrip, encode_message, Msg.cls, msg_opcode, hp, packBB,
        if_pos (⟨hp256, hv⟩ : p < 256 ∧ v < 256), Except.map, Except.bind, decode_message]
      rw [(gen_arith node_id hn 6 (by norm_num)).1]
      simp [decodeOp, opcode2msg, hp]
    · have hp256 : p < 256 := by
        by_contra h
        simp [params_byte_defs] at hp
        omega
      simp only [roundtrip, encode_message, Msg.cls, msg_opcode, hp, packBB,
        if_pos (⟨hp256, hv⟩ : p < 256 ∧ v < 256), Except.map, Except.bind, decode_message]
      rw [(gen_arith node_id hn 4 (by norm_num)).1]
      simp [decodeOp, opcode2msg, hp]
  · intro p v hp hv
    have hp255 : p = 255 := by
      unfold params_byte_defs at hp
      split_ifs at hp <;> simp_all
    subst hp255
    have hv' : v % 256 + 256 * (v / 256 % 256) + 65536 * (v / 65536 % 256) +
        16777216 * (v / 16777216 % 256) = v := by omega
    refine ⟨?_, ?_, by simp [pyEq, Msg.fields]⟩
    · simp [roundtrip, encode_message, Msg.cls, msg_opcode, packBI, hv, Except.map, Except.bind,
        decode_message, (gen_arith node_id hn 6 (by norm_num)).1, decodeOp, opcode2msg,
        params_byte_defs, hv']
    · simp [roundtrip, encode_message, Msg.cls, msg_opcode, packBI, hv, Except.map, Except.bind,
        decode_message, (gen_arith node_id hn 4 (by norm_num)).1, decodeOp, opcode2msg,
        params_byte_defs, hv']

/-- Witness for C1 as amended: a boundary heartbeat (io_state=255, counter=255)
round-trips at node_id 1. -/
theorem C1_roundtrip_witness :
    roundtrip (.HeartbeatMessage 1 0 255 0 255) 1 = .ok (.HeartbeatMessage 1 0 255 0 255) :=
  (C1_roundtrip_amended 1 (by norm_num)).2.1 1 (by norm_num) 0 (by norm_num) 255 (by norm_num)
    0 (by norm_num) 255 (by norm_num)

/-- Counterexample to claim C3 as stated: `SetParameterMessage(0, 1)` encodes to
opcode 6 (not the claimed 4) with a 2-byte payload (not the claimed 5-byte
`param_id:u8, value:i32` layout). -/
theorem C3_layout_counterexample :
    encode_message (Msg.SetParameterMessage 0 1) 1 = .ok (generate_message_id 1 6, [0, 1]) ∧
    generate_message_id 1 6 &&& 0x1F ≠ 4 ∧ ([0, 1] : List Nat).length ≠ 5 := by decide

/-- Claim C3 as amended: under `_MSG_DEFS` the opcode table is Halt=0 (1 byte),
Heartbeat=1 (5 bytes), IoState=2 (1 byte), SetIo=3 (1 byte), Parameter=4
(variable), GetParameter=5 (1 byte), SetParameter=6 (variable); whenever encode
succeeds for a node_id in [0,63], the produced identifier carries the variant's
opcode in its low 5 bits and the node_id above, and the payload has exactly the
declared byte count — 1+1 bytes for Parameter/SetParameter with a u8-width
param_id and 1+4 bytes with the u32-width one. -/
theorem C3_layout_amended (m : Msg) (node_id : Nat) (hn : node_id < 64)
    (id : Nat) (data : List Nat) (h : encode_message m node_id = .ok (id, data)) :
    id &&& 0x1F = msg_opcode m.cls ∧ id >>> 5 = node_id ∧
    some data.length = declared_length m := by
  cases m with
  | HaltMessage io =>
    by_cases hio : io < 256
    · simp only [encode_message, Msg.cls, msg_opcode, packB, if_pos hio, Except.map,
        Except.ok.injEq, Prod.mk.injEq] at h
      obtain ⟨rfl, rfl⟩ := h
      exact ⟨(gen_arith node_id hn 0 (by norm_num)).1, (gen_arith node_id hn 0 (by norm_num)).2,
        rfl⟩
    · simp only [encode_message, Msg.cls, msg_opcode, packB, if_neg hio, Except.map] at h
      exact Except.noConfusion h
  | HeartbeatMessage a b c d e =>
    by_cases hc : a < 256 ∧ b < 256 ∧ c < 256 ∧ d < 256 ∧ e < 256
    · simp only [encode_message, Msg.cls, msg_opcode, packBBBBB, if_pos hc, Except.map,
        Except.ok.injEq, Prod.mk.injEq] at h
      obtain ⟨rfl, rfl⟩ := h
      exact ⟨(gen_arith node_id hn 1 (by norm_num)).1, (gen_arith node_id hn 1 (by norm_num)).2,
        rfl⟩
    · simp only [encode_message, Msg.cls, msg_opcode, packBBBBB, if_neg hc, Except.map] at h
      exact Except.noConfusion h
  | IoStateMessage io =>
    by_cases hio : io < 256
    · simp only [encode_message, Msg.cls, msg_opcode, packB, if_pos hio, Except.map,
        Except.ok.injEq, Prod.mk.injEq] at h
      obtain ⟨rfl, rfl⟩ := h
      exact ⟨(gen_arith node_id hn 2 (by norm_num)).1, (gen_arith node_id hn 2 (by norm_num)).2,
        rfl⟩
    · simp only [encode_message, Msg.cls, msg_opcode, packB, if_neg hio, Except.map] at h
      exact Except.noConfusion h
  | SetIoMessage io =>
    by_cases hio : io < 256
    · simp only [encode_message, Msg.cls, msg_opcode, packB, if_pos hio, Except.map,
        Except.ok.injEq, Prod.mk.injEq] at h
      obtain ⟨rfl, rfl⟩ := h
      exact ⟨(gen_arith node_id hn 3 (by norm_num)).1, (gen_arith node_id hn 3 (by norm_num)).2,
        rfl⟩
    · simp only [encode_message, Msg.cls, msg_opcode, packB, if_neg hio, Except.map] at h
      exact Except.noConfusion h
  | GetParameterMessage p =>
    by_cases hp : p < 256
    · simp only [encode_message, Msg.cls, msg_opcode, packB, if_pos hp, Except.map,
        Except.ok.injEq, Prod.mk.injEq] at h
      obtain ⟨rfl, rfl⟩ := h
      exact ⟨(gen_arith node_id hn 5 (by norm_num)).1, (gen_arith node_id hn 5 (by norm_num)).2,
        rfl⟩
    · simp only [encode_message, Msg.cls, msg_opcode, packB, if_neg hp, Except.map] at h
      exact Except.noConfusion h
  | ParameterMessage p v =>
    rcases hpd : params_byte_defs p with _ | w
    · simp only [encode_message, Msg.cls, msg_opcode, hpd, Except.map] at h
      exact Except.noConfusion h
    · cases w with
      | uint8 =>
        by_cases hc : p < 256 ∧ v < 256
        · simp only [encode_message, Msg.cls, msg_opcode, hpd, packBB, if_pos hc, Except.map,
            Except.ok.injEq, Prod.mk.injEq] at h
          obtain ⟨rfl, rfl⟩ := h
          refine ⟨(gen_arith node_id hn 4 (by norm_num)).1,
            (gen_arith node_id hn 4 (by norm_num)).2, ?_⟩
          simp [declared_length, hpd]
        · simp only [encode_message, Msg.cls, msg_opcode, hpd, packBB, if_neg hc, Except.map] at h
          exact Except.noConfusion h
      | uint32 =>
        by_cases hc : p < 256 ∧ v < 4294967296
        · simp only [encode_message, Msg.cls, msg_opcode, hpd, packBI, if_pos hc, Except.map,
            Except.ok.injEq, Prod.mk.injEq] at h
          obtain ⟨rfl, rfl⟩ := h
          refine ⟨(gen_arith node_id hn 4 (by norm_num)).1,
            (gen_arith node_id hn 4 (by norm_num)).2, ?_⟩
          simp [declared_length, hpd]
        · simp only [encode_message, Msg.cls, msg_opcode, hpd, packBI, if_neg hc, Except.map] at h
          exact Except.noConfusion h
  | SetParameterMessage p v =>
    rcases hpd : params_byte_defs p with _ | w
    · simp only [encode_message, Msg.cls, msg_opcode, hpd, Except.map] at h
      exact Except.noConfusion h
    · cases w with
      | uint8 =>
        by_cases hc : p < 256 ∧ v < 256
        · simp only [encode_message, Msg.cls, msg_opcode, hpd, packBB, if_pos hc, Except.map,
            Except.ok.injEq, Prod.mk.injEq] at h
          obtain ⟨rfl, rfl⟩ := h
          refine ⟨(gen_arith node_id hn 6 (by norm_num)).1,
            (gen_arith node_id hn 6 (by norm_num)).2, ?_⟩
          simp [declared_length, hpd]
        · simp only [encode_message, Msg.cls, msg_opcode, hpd, packBB, if_neg hc, Except.map] at h
          exact Except.noConfusion h
      | uint32 =>
        by_cases hc : p < 256 ∧ v < 4294967296
        · simp only [encode_message, Msg.cls, msg_opcode, hpd, packBI, if_pos hc, Except.map,
            Except.ok.injEq, Prod.mk.injEq] at h
          obtain ⟨rfl, rfl⟩ := h
          refine ⟨(gen_arith node_id hn 6 (by norm_num)).1,
            (gen_arith node_id hn 6 (by norm_num)).2, ?_⟩
          simp [declared_length, hpd]
        · simp only [encode_message, Msg.cls, msg_opcode, hpd, packBI, if_neg hc, Except.map] at h
          exact Except.noConfusion h

/-- Witness for C3 as amended: a concrete heartbeat encodes with opcode 1 and
5 payload bytes. -/
theorem C3_layout_witness :
    generate_message_id 1 1 &&& 0x1F = msg_opcode (Msg.HeartbeatMessage 1 2 190 239 255).cls ∧
    generate_message_id 1 1 >>> 5 = 1 ∧
    some ([1, 2, 190, 239, 255] : List Nat).length =
      declared_length (Msg.HeartbeatMessage 1 2 190 239 255) :=
  C3_layout_amended (Msg.HeartbeatMessage 1 2 190 239 255) 1 (by norm_num) _ _ (by decide)

/-- Counterexample to claim C4 as stated: for identifier 4 the claim's table
matches SetParameter with fixed size 5, so the 2-byte payload `[0, 0]` should
fail with a length mismatch — but `decode_message` succeeds, returning
`ParameterMessage(0, 0)` (opcode 4 is the variable-length `ParameterMessage`). -/
theorem C4_decode_counterexample :
    decode_message 4 [0, 0] = .ok (Msg.ParameterMessage 0 0) ∧
    ([0, 0] : List Nat).length ≠ 5 := by decide

/-- Claim C4 as amended: decoding fails with `KeyError` when the low 5 bits of
the identifier match no registered opcode (7–31); for the fixed-length opcodes
(0,1,2,3,5) it succeeds exactly when the payload has the declared size and fails
with `struct.error` otherwise; for the variable-length opcodes 4 and 6 it fails
with `IndexError` on an empty payload, `KeyError` on an unregistered param_id,
succeeds exactly when the value part has the registered width (1 byte for u8
ids, 4 bytes for the u32 id), and fails with `struct.error` otherwise. -/
theorem C4_decode_amended (arb_id : Nat) (data : List Nat) :
    (7 ≤ arb_id &&& 0x1F → decode_message arb_id data = .error .keyError) ∧
    (∀ sz, fixed_size (arb_id &&& 0x1F) = some sz →
      ((∃ m, decode_message arb_id data = .ok m) ↔ data.length = sz) ∧
      (data.length ≠ sz → decode_message arb_id data = .error .structError)) ∧
    ((arb_id &&& 0x1F = 4 ∨ arb_id &&& 0x1F = 6) →
      (data = [] → decode_message arb_id data = .error .indexError) ∧
      (∀ p rest, data = p :: rest →
        (params_byte_defs p = none → decode_message arb_id data = .error .keyError) ∧
        (params_byte_defs p = some .uint8 →
          ((∃ m, decode_message arb_id data = .ok m) ↔ rest.length = 1) ∧
          (rest.length ≠ 1 → decode_message arb_id data = .error .structError)) ∧
        (params_byte_defs p = some .uint32 →
          ((∃ m, decode_message arb_id data = .ok m) ↔ rest.length = 4) ∧
          (rest.length ≠ 4 → decode_message arb_id data = .error .structError)))) := by
  refine ⟨?_, ?_, ?_⟩
  · intro h7
    have h0 : arb_id &&& 0x1F ≠ 0 := by omega
    have h1 : arb_id &&& 0x1F ≠ 1 := by omega
    have h2 : arb_id &&& 0x1F ≠ 2 := by omega
    have h3 : arb_id &&& 0x1F ≠ 3 := by omega
    have h4 : arb_id &&& 0x1F ≠ 4 := by omega
    have h5 : arb_id &&& 0x1F ≠ 5 := by omega
    have h6 : arb_id &&& 0x1F ≠ 6 := by omega
    simp [decode_message, decodeOp, opcode2msg, h0, h1, h2, h3, h4, h5, h6]
  · intro sz hsz
    unfold fixed_size at hsz
    split_ifs at hsz with h0 h1 h2 h3 h5 <;>
      simp only [Option.some.injEq] at hsz <;> subst hsz
    · rw [decode_message, h0]
      rcases data with _ | ⟨b, _ | ⟨b2, rest⟩⟩ <;>
        simp +arith [decodeOp, opcode2msg, unpackFixed]
    · rw [decode_message, h1]
      rcases data with _ | ⟨a, _ | ⟨b, _ | ⟨c, _ | ⟨d, _ | ⟨e, _ | ⟨f, rest⟩⟩⟩⟩⟩⟩ <;>
        simp +arith [decodeOp, opcode2msg, unpackFixed]
    · rw [decode_message, h2]
      rcases data with _ | ⟨b, _ | ⟨b2, rest⟩⟩ <;>
        simp +arith [decodeOp, opcode2msg, unpackFixed]
    · rw [decode_message, h3]
      rcases data with _ | ⟨b, _ | ⟨b2, rest⟩⟩ <;>
        simp +arith [decodeOp, opcode2msg, unpackFixed]
    · rw [decode_message, h5]
      rcases data with _ | ⟨b, _ | ⟨b2, rest⟩⟩ <;>
        simp +arith [decodeOp, opcode2msg, unpackFixed]
  · intro hor
    have hop : decode_message arb_id data =
        match data with
        | [] => .error .indexError
        | param_id :: rest =>
          match params_byte_defs param_id with
          | none => .error .keyError
          | some .uint8 =>
            match rest with
            | [v] => .ok (.ParameterMessage param_id v)
            | _ => .error .structError
          | some .uint32 =>
            match rest with
            | [b0, b1, b2, b3] =>
              .ok (.ParameterMessage param_id (b0 + 256 * b1 + 65536 * b2 + 16777216 * b3))
            | _ => .error .structError := by
      rcases hor with h | h <;> rw [decode_message, h] <;> rfl
    refine ⟨?_, ?_⟩
    · intro hd
      subst hd
      exact hop
    · intro p rest hd
      subst hd
      refine ⟨?_, ?_, ?_⟩
      · intro hpd
        rw [hop]
        dsimp only
        rw [hpd]
      · intro hpd
        rw [hop]
        dsimp only
        rw [hpd]
        rcases rest with _ | ⟨v, _ | ⟨v2, rest'⟩⟩ <;> simp +arith
      · intro hpd
        rw [hop]
        dsimp only
        rw [hpd]
        rcases rest with _ | ⟨b0, _ | ⟨b1, _ | ⟨b2, _ | ⟨b3, _ | ⟨b4, rest'⟩⟩⟩⟩⟩ <;>
          simp +arith

/-- Witness for C4 as amended, touching every failure kind and a success. -/
theorem C4_decode_witness :
    decode_message 7 [] = .error .keyError ∧
    decode_message (generate_message_id 1 1) [1, 2, 3] = .error .structError ∧
    (∃ m, decode_message (generate_message_id 1 1) [1, 2, 3, 4, 5] = .ok m) ∧
    decode_message 4 [9, 0] = .error .keyError ∧
    decode_message 6 [] = .error .indexError :=
  ⟨(C4_decode_amended 7 []).1 (by decide),
   ((C4_decode_amended (generate_message_id 1 1) [1, 2, 3]).2.1 5 (by decide)).2 (by norm_num),
   ((C4_decode_amended (generate_message_id 1 1) [1, 2, 3, 4, 5]).2.1 5 (by decide)).1.mpr rfl,
   ((((C4_decode_amended 4 [9, 0]).2.2 (by decide)).2) 9 [0] rfl).1 (by decide),
   ((C4_decode_amended 6 []).2.2 (by decide)).1 rfl⟩

/-- `bool(v & (1 << k))` is bit k of `v`. -/
theorem and_shift_ne (v k : Nat) : decide (v &&& (1 <<< k) ≠ 0) = v.testBit k := by
  rw [Nat.one_shiftLeft, Nat.and_two_pow]
  rcases h : v.testBit k <;> simp

/-- Claim C7: `check_alive` fails with the no-heartbeat error when no Heartbeat
was ever received, fails with the timeout error when more than
`HEARTBEAT_TIMEOUT` = 0.5 s has elapsed since the last one, succeeds otherwise,
and the two failure values are distinct (the caller can tell them apart). -/
theorem C7_check_alive (icu : IcuState) (now : ℚ) :
    HEARTBEAT_TIMEOUT = 1 / 2 ∧
    (icu.last_heartbeat = none →
      check_alive icu now = .error (.heartbeatError "Error: No heartbeat message received.")) ∧
    (∀ hb, icu.last_heartbeat = some hb →
      (now - icu.last_heartbeat_time > HEARTBEAT_TIMEOUT →
        check_alive icu now = .error (.heartbeatError "Error: Heartbeat message timeout.")) ∧
      (now - icu.last_heartbeat_time ≤ HEARTBEAT_TIMEOUT → check_alive icu now = .ok ())) ∧
    PyExc.heartbeatError "Error: No heartbeat message received." ≠
      PyExc.heartbeatError "Error: Heartbeat message timeout." := by
  refine ⟨rfl, ?_, ?_, by decide⟩
  · intro h
    rw [check_alive, h]
  · intro hb h
    constructor
    · intro ht
      rw [check_alive, h]
      simp only [if_pos ht]
    · intro ht
      rw [check_alive, h]
      simp only [if_neg (not_lt.mpr ht)]

/-- A session that has just received a heartbeat at instant 0. -/
def icuWithHb : IcuState :=
  { initIcu 1 with last_heartbeat := some (.HeartbeatMessage 1 0 0 0 0), last_heartbeat_time := 0 }

/-- Witness for C7: never-received, timed-out and alive cases at concrete instants. -/
theorem C7_check_alive_witness :
    check_alive (initIcu 1) 0 = .error (.heartbeatError "Error: No heartbeat message received.") ∧
    check_alive icuWithHb 1 = .error (.heartbeatError "Error: Heartbeat message timeout.") ∧
    check_alive icuWithHb (1 / 4) = .ok () :=
  ⟨(C7_check_alive (initIcu 1) 0).2.1 rfl,
   ((C7_check_alive icuWithHb 1).2.2.1 _ rfl).1 (by norm_num [icuWithHb, initIcu, HEARTBEAT_TIMEOUT]),
   ((C7_check_alive icuWithHb (1 / 4)).2.2.1 _ rfl).2 (by norm_num [icuWithHb, initIcu, HEARTBEAT_TIMEOUT])⟩

/-- Claim C5 (code bug): when `check_alive` fails, the `io_state` setter
propagates that failure and sends nothing; but when `check_alive` succeeds the
setter raises `AttributeError` instead of sending, because `core.py` evaluates
`canp.IOSetMessage(state)` while `can_protocol.py` (VERSION 12) defines the
class under the name `SetIoMessage` — encoding a `SetIoMessage` itself would
have produced the expected opcode-3 frame. -/
theorem C5_setter_bug :
    io_state_setter (initIcu 1) 0 1 =
      .error (.heartbeatError "Error: No heartbeat message received.") ∧
    io_state_setter icuWithHb 0 1 = .error (.attributeError "IOSetMessage") ∧
    can_protocol_attr "IOSetMessage" = none ∧
    can_protocol_attr "SetIoMessage" = some .SetIoC ∧
    encode_message (Msg.SetIoMessage 1) 1 = .ok (generate_message_id 1 3, [1]) := by
  refine ⟨by decide, ?_, by decide, by decide, by decide⟩
  have hca : check_alive icuWithHb 0 = .ok () := by
    rw [check_alive, show icuWithHb.last_heartbeat = some (.HeartbeatMessage 1 0 0 0 0) from rfl,
      if_neg]
    norm_num [icuWithHb, initIcu, HEARTBEAT_TIMEOUT]
  rw [io_state_setter, hca]
  rfl

/-- Claim C6 (code bug): the dispatch task fully processes a Heartbeat frame —
records it, stamps the time, updates io_state and the pins, raises the
heartbeat event — but on an `IoStateMessage` frame (which decodes fine) the
handler's `isinstance(msg, canp.IOStateMessage)` check raises `AttributeError`
(the module defines `IoStateMessage`), the handler's exception guard swallows
it, and the session state is left unchanged instead of updating io_state and
the pins. -/
theorem C6_handler_bug :
    ((handle_frame (initIcu 1) 3 (generate_message_id 1 1) [7, 0, 1, 0, 9]).last_heartbeat =
        some (.HeartbeatMessage 7 0 1 0 9) ∧
      (handle_frame (initIcu 1) 3 (generate_message_id 1 1) [7, 0, 1, 0, 9]).last_heartbeat_time = 3 ∧
      (handle_frame (initIcu 1) 3 (generate_message_id 1 1) [7, 0, 1, 0, 9]).heartbeat_event = true ∧
      (handle_frame (initIcu 1) 3 (generate_message_id 1 1) [7, 0, 1, 0, 9]).io_state = 1 ∧
      ((handle_frame (initIcu 1) 3 (generate_message_id 1 1) [7, 0, 1, 0, 9]).pins 0).state = true ∧
      ((handle_frame (initIcu 1) 3 (generate_message_id 1 1) [7, 0, 1, 0, 9]).pins 0).high_event = true ∧
      ((handle_frame (initIcu 1) 3 (generate_message_id 1 1) [7, 0, 1, 0, 9]).pins 0).change_event = true) ∧
    (decode_message (generate_message_id 1 2) [255] = .ok (.IoStateMessage 255) ∧
      can_protocol_attr "IOStateMessage" = none ∧
      (handle_frame (initIcu 1) 3 (generate_message_id 1 2) [255]).io_state = 0 ∧
      (handle_frame (initIcu 1) 3 (generate_message_id 1 2) [255]).heartbeat_event = false ∧
      ((handle_frame (initIcu 1) 3 (generate_message_id 1 2) [255]).pins 0).state = false ∧
      ((handle_frame (initIcu 1) 3 (generate_message_id 1 2) [255]).pins 0).change_event = false) := by
  decide

/-- Claim C8: updating the session's io_state sets each pin's level to its bit
of the new value; a pin whose bit is unchanged is left untouched (no signal);
a changed pin raises the change event, plus the high event on a rising edge
(low event flag untouched) or the low event on a falling edge (high event flag
untouched). -/
theorem C8_pin_update (icu : IcuState) (v : Nat) (i : Fin 8) :
    (uptate_io_state icu v).io_state = v ∧
    ((uptate_io_state icu v).pins i).state = v.testBit i.val ∧
    (v.testBit i.val = (icu.pins i).state →
      (uptate_io_state icu v).pins i = icu.pins i) ∧
    (v.testBit i.val ≠ (icu.pins i).state →
      ((uptate_io_state icu v).pins i).change_event = true ∧
      ((icu.pins i).state = false →
        ((uptate_io_state icu v).pins i).high_event = true ∧
        ((uptate_io_state icu v).pins i).low_event = (icu.pins i).low_event) ∧
      ((icu.pins i).state = true →
        ((uptate_io_state icu v).pins i).low_event = true ∧
        ((uptate_io_state icu v).pins i).high_event = (icu.pins i).high_event)) := by
  have hpin : (uptate_io_state icu v).pins i = pin_update (icu.pins i) (v.testBit i.val) := by
    rw [uptate_io_state]
    dsimp only
    rw [and_shift_ne]
  refine ⟨rfl, ?_, ?_, ?_⟩
  · rw [hpin, pin_update]
    by_cases hb : v.testBit i.val = (icu.pins i).state
    · rw [if_pos hb]
      exact hb.symm
    · rw [if_neg hb]
  · intro hb
    rw [hpin, pin_update, if_pos hb]
  · intro hb
    rw [hpin, pin_update, if_neg hb]
    refine ⟨rfl, ?_, ?_⟩
    · intro hs
      have : v.testBit i.val = true := by
        rcases h : v.testBit i.val
        · rw [h, hs] at hb; exact absurd rfl hb
        · rfl
      rw [this]
      exact ⟨rfl, rfl⟩
    · intro hs
      have : v.testBit i.val = false := by
        rcases h : v.testBit i.val
        · rfl
        · rw [h, hs] at hb; exact absurd rfl hb
      rw [this]
      exact ⟨rfl, rfl⟩

/-- Witness for C8: driving io_state 0 → 1 raises change and high on pin 0 and
leaves pin 1 untouched. -/
theorem C8_pin_update_witness :
    ((uptate_io_state (initIcu 1) 1).pins 0).change_event = true ∧
    ((uptate_io_state (initIcu 1) 1).pins 0).high_event = true ∧
    (uptate_io_state (initIcu 1) 1).pins 1 = (initIcu 1).pins 1 :=
  ⟨((C8_pin_update (initIcu 1) 1 0).2.2.2 (by decide)).1,
   (((C8_pin_update (initIcu 1) 1 0).2.2.2 (by decide)).2.1 rfl).1,
   (C8_pin_update (initIcu 1) 1 1).2.2.1 (by decide)⟩

/-- Claim C10: assigning `pins[k].state = b` on a non-input pin with a parent
commands the parent's current io_state with bit k set to b and all other bits
unchanged (bit-for-bit characterization of the commanded value); on an input
pin the assignment fails with `ValueError` and commands nothing; without a
parent it fails with `RuntimeError`. -/
theorem C10_pin_state_setter (p : PinState) (io : Nat) (b : Bool) :
    (p.is_input = false →
      ∃ v : Int, pin_state_setter p (some io) b = .ok v ∧
        ∀ j : Nat, v.testBit j = if j = p.number then b else (io : Int).testBit j) ∧
    (p.is_input = true →
      ∀ pio, pin_state_setter p pio b = .error (.valueError "pin is read-only")) ∧
    (p.is_input = false →
      pin_state_setter p none b = .error (.runtimeError "parent is not set")) := by
  refine ⟨?_, ?_, ?_⟩
  · intro hin
    refine ⟨_, by rw [pin_state_setter.eq_def, if_neg (by simp [hin])], ?_⟩
    intro j
    rw [show ((1 : Int) <<< (p.number : Int)) = ((1 <<< p.number : Nat) : Int) from
      Int.shiftLeft_coe_nat 1 p.number]
    rcases b with _ | _
    · rw [show ((if false = true then (1 : Int) else 0) <<< (p.number : Int)) =
        ((0 <<< p.number : Nat) : Int) from Int.shiftLeft_coe_nat 0 p.number]
      simp only [Int.testBit_lor, Int.testBit_land, Int.testBit_lnot]
      rw [show Int.testBit ((io : Int)) j = Nat.testBit io j from rfl,
        show Int.testBit (((1 <<< p.number : Nat) : Int)) j = Nat.testBit (1 <<< p.number) j from rfl,
        show Int.testBit (((0 <<< p.number : Nat) : Int)) j = Nat.testBit (0 <<< p.number) j from rfl]
      rw [Nat.one_shiftLeft, Nat.zero_shiftLeft]
      by_cases hj : j = p.number
      · subst hj
        rw [Nat.testBit_two_pow_self, Nat.zero_testBit]
        simp
      · rw [Nat.testBit_two_pow_of_ne (fun h => hj h.symm), Nat.zero_testBit]
        simp [hj]
    · rw [show ((if true = true then (1 : Int) else 0) <<< (p.number : Int)) =
        ((1 <<< p.number : Nat) : Int) from Int.shiftLeft_coe_nat 1 p.number]
      simp only [Int.testBit_lor, Int.testBit_land, Int.testBit_lnot]
      rw [show Int.testBit ((io : Int)) j = Nat.testBit io j from rfl,
        show Int.testBit (((1 <<< p.number : Nat) : Int)) j = Nat.testBit (1 <<< p.number) j from rfl]
      rw [Nat.one_shiftLeft]
      by_cases hj : j = p.number
      · subst hj
        rw [Nat.testBit_two_pow_self]
        simp
      · rw [Nat.testBit_two_pow_of_ne (fun h => hj h.symm)]
        simp [hj]
  · intro hin pio
    rw [pin_state_setter.eq_def, if_pos hin]
  · intro hin
    rw [pin_state_setter.eq_def, if_neg (by simp [hin])]

/-- Witness for C10: setting bit 3 on io_state 5 and rejecting an input pin. -/
theorem C10_pin_state_setter_witness :
    (∃ v : Int, pin_state_setter (initPin 3) (some 5) true = .ok v ∧
      ∀ j : Nat, v.testBit j = if j = (initPin 3).number then true else ((5 : Nat) : Int).testBit j) ∧
    pin_state_setter { initPin 2 with is_input := true } (some 5) true =
      .error (.valueError "pin is read-only") :=
  ⟨(C10_pin_state_setter (initPin 3) 5 true).1 rfl,
   (C10_pin_state_setter { initPin 2 with is_input := true } 5 true).2.1 rfl (some 5)⟩

/-- The phase of one client task with respect to an event's `wait()` call:
`idle` — has not entered the wait; `waiting` — inside the wait, suspended on
the underlying `asyncio.Event`; `observed` — resumed from the suspension (the
event was set) but not yet out of the wait call; `done` — returned from the
wait call. -/
inductive WaiterPhase
  | idle
  | waiting
  | observed
  | done
deriving DecidableEq

/-- One event's `is_set` flag together with the phases of `n` client tasks. -/
structure EventState (n : Nat) where
  is_set : Bool
  phase : Fin n → WaiterPhase

/-- `AutoClearEvent._active_waiters`: incremented on entering `wait()` and
decremented in its `finally:` block, so it counts the tasks in phase `waiting`
or `observed`. -/
def activeWaiters {n : Nat} (s : EventState n) : Nat :=
  (Finset.univ.filter fun i => s.phase i = .waiting ∨ s.phase i = .observed).card

/-- The interleaving semantics of `core.AutoClearEvent` under asyncio's
cooperative scheduling; each constructor is one atomic code section of
`wait()`/`set()` (cancellation of a waiter, which also runs the `finally:`
block, is outside the claim and not modelled): entering `wait()` increments
the counter and suspends; `set()` sets the flag; a suspended waiter resumes
only while the flag is set; leaving `wait()` runs the `finally:` block —
decrement, and the waiter that brings the count to zero clears the flag. -/
inductive EvStep {n : Nat} : EventState n → EventState n → Prop
  | enter (s : EventState n) (i : Fin n) :
      s.phase i = .idle → EvStep s ⟨s.is_set, Function.update s.phase i .waiting⟩
  | signal (s : EventState n) : EvStep s ⟨true, s.phase⟩
  | observe (s : EventState n) (i : Fin n) :
      s.phase i = .waiting → s.is_set = true →
      EvStep s ⟨s.is_set, Function.update s.phase i .observed⟩
  | leave (s : EventState n) (i : Fin n) :
      s.phase i = .observed →
      EvStep s ⟨if activeWaiters ⟨s.is_set, Function.update s.phase i .done⟩ = 0
          then false else s.is_set,
        Function.update s.phase i .done⟩

/-- The protocol of the plain `asyncio.Event` used for `ICU._heartbeat_event`:
`wait_for_heartbeat` clears the event on entry, suspends until it is set, and
returns without touching it — there is no waiter counter and no clearing on
the way out. -/
inductive HbStep {n : Nat} : EventState n → EventState n → Prop
  | enter (s : EventState n) (i : Fin n) :
      s.phase i = .idle → HbStep s ⟨false, Function.update s.phase i .waiting⟩
  | signal (s : EventState n) : HbStep s ⟨true, s.phase⟩
  | observe (s : EventState n) (i : Fin n) :
      s.phase i = .waiting → s.is_set = true →
      HbStep s ⟨s.is_set, Function.update s.phase i .observed⟩
  | leave (s : EventState n) (i : Fin n) :
      s.phase i = .observed → HbStep s ⟨s.is_set, Function.update s.phase i .done⟩

/-- Counterexample to claim C9 as stated: the heartbeat-wait signal is not
auto-clearing.  With one waiter that has observed the raised event, the waiter
completes its wait (a `HbStep.leave`), after which every waiter is done and the
event is still set — it is left set after all waiters have progressed, cleared
only by the next `wait_for_heartbeat`'s entry. -/
theorem C9_signals_counterexample :
    HbStep (⟨true, fun _ : Fin 1 => WaiterPhase.observed⟩ : EventState 1)
      ⟨true, Function.update (fun _ : Fin 1 => WaiterPhase.observed) 0 WaiterPhase.done⟩ ∧
    (∀ j : Fin 1,
      Function.update (fun _ : Fin 1 => WaiterPhase.observed) 0 WaiterPhase.done j =
        WaiterPhase.done) ∧
    (⟨true, Function.update (fun _ : Fin 1 => WaiterPhase.observed) 0 WaiterPhase.done⟩ :
      EventState 1).is_set = true :=
  ⟨HbStep.leave _ 0 rfl, by decide, rfl⟩

/-- Claim C9 as amended: the three pin edge signals (`AutoClearEvent`) are
auto-clearing — (1) a step can clear a raised signal only when no waiter
remains in the wait, so none of the tasks waiting at the raise misses it;
(2) while any task is still suspended in the wait, every step keeps the signal
set; (3) the last active waiter's exit does clear it.  The heartbeat-wait
signal is a plain `asyncio.Event`: (4) a waiter's exit never changes the flag,
and (5) the only step that takes it from set to clear is a new waiter entering
`wait_for_heartbeat`, which clears it on entry. -/
theorem C9_signals_amended {n : Nat} (s s' : EventState n) :
    (EvStep s s' → s.is_set = true → s'.is_set = false →
      ∀ j, s'.phase j ≠ .waiting ∧ s'.phase j ≠ .observed) ∧
    (EvStep s s' → ∀ i, s.phase i = .waiting → s.is_set = true → s'.is_set = true) ∧
    (∀ i, s.phase i = .observed →
      (∀ j, j ≠ i → s.phase j ≠ .waiting ∧ s.phase j ≠ .observed) →
      EvStep s ⟨false, Function.update s.phase i .done⟩) ∧
    (∀ i, s.phase i = .observed → HbStep s ⟨s.is_set, Function.update s.phase i .done⟩) ∧
    (HbStep s s' → s.is_set = true → s'.is_set = false →
      ∃ i, s.phase i = .idle ∧ s'.phase = Function.update s.phase i .waiting) := by
  refine ⟨?_, ?_, ?_, ?_, ?_⟩
  · intro h h1 h2 j
    cases h with
    | enter i hi => rw [h1] at h2; exact absurd h2 (by simp)
    | signal => exact absurd h2 (by simp)
    | observe i hi hset => rw [h1] at h2; exact absurd h2 (by simp)
    | leave i hi =>
      by_cases hz : activeWaiters ⟨s.is_set, Function.update s.phase i .done⟩ = 0
      · have hempty := Finset.filter_eq_empty_iff.mp (Finset.card_eq_zero.mp hz)
        have hj := hempty (Finset.mem_univ j)
        push_neg at hj
        exact hj
      · rw [if_neg hz] at h2
        rw [h1] at h2
        exact absurd h2 (by simp)
  · intro h i hi hset
    cases h with
    | enter j hj => exact hset
    | signal => rfl
    | observe j hj hs => exact hset
    | leave j hj =>
      have hij : i ≠ j := by
        intro he
        rw [he, hj] at hi
        exact absurd hi (by simp)
      have hmem : i ∈ Finset.univ.filter
          (fun k => (⟨s.is_set, Function.update s.phase j .done⟩ : EventState n).phase k =
              WaiterPhase.waiting ∨
            (⟨s.is_set, Function.update s.phase j .done⟩ : EventState n).phase k =
              WaiterPhase.observed) := by
        refine Finset.mem_filter.mpr ⟨Finset.mem_univ i, Or.inl ?_⟩
        show Function.update s.phase j WaiterPhase.done i = WaiterPhase.waiting
        rw [Function.update_noteq hij]
        exact hi
      have hz : activeWaiters ⟨s.is_set, Function.update s.phase j .done⟩ ≠ 0 :=
        Finset.card_ne_zero_of_mem hmem
      show (if activeWaiters ⟨s.is_set, Function.update s.phase j .done⟩ = 0
          then false else s.is_set) = true
      rw [if_neg hz]
      exact hset
  · intro i hi hothers
    have hz : activeWaiters ⟨s.is_set, Function.update s.phase i .done⟩ = 0 := by
      rw [activeWaiters, Finset.card_eq_zero, Finset.filter_eq_empty_iff]
      intro j _
      show ¬(Function.update s.phase i WaiterPhase.done j = WaiterPhase.waiting ∨
        Function.update s.phase i WaiterPhase.done j = WaiterPhase.observed)
      by_cases hij : j = i
      · subst hij
        rw [Function.update_same]
        simp
      · rw [Function.update_noteq hij]
        push_neg
        exact hothers j hij
    have hstep := EvStep.leave s i hi
    rw [if_pos hz] at hstep
    exact hstep
  · intro i hi
    exact HbStep.leave s i hi
  · intro h h1 h2
    cases h with
    | enter i hi => exact ⟨i, hi, rfl⟩
    | signal => exact absurd h2 (by simp)
    | observe i hi hs => rw [h1] at h2; exact absurd h2 (by simp)
    | leave i hi => rw [h1] at h2; exact absurd h2 (by simp)

/-- Witness for C9 as amended: in a two-waiter system where waiter 0 has
observed the raise and waiter 1 is already done, waiter 0's exit clears the
event. -/
theorem C9_signals_witness :
    EvStep
      (⟨true, fun i : Fin 2 =>
        if i.val = 0 then WaiterPhase.observed else WaiterPhase.done⟩ : EventState 2)
      ⟨false, Function.update
        (fun i : Fin 2 => if i.val = 0 then WaiterPhase.observed else WaiterPhase.done) 0
        WaiterPhase.done⟩ :=
  (C9_signals_amended
    (⟨true, fun i : Fin 2 =>
      if i.val = 0 then WaiterPhase.observed else WaiterPhase.done⟩ : EventState 2)
    (⟨true, fun i : Fin 2 =>
      if i.val = 0 then WaiterPhase.observed else WaiterPhase.done⟩ : EventState 2)).2.2.1
    0 rfl (by decide)
